import Mathlib

/-
Verification of the contribution lifecycle and payment reconciliation
engine of the bakgomong web application.

The Python/Django source is shallowly embedded: model rows become Lean
structures, monetary Decimal values become Int (cents, exact equality),
TextChoices that the code compares against fixed members become inductive
types, free-form CharFields (scope, recurrence, roles, classifications)
stay String, nullable columns become Option, and each view or model
method becomes a pure state-passing function.  Django's `save` side
effects on the linked MemberContribution row (contributions/models.py,
Payment.save) are made explicit.  The HMAC primitive used by the webhook
view is an external library call (hashlib/hmac) and is therefore a
function parameter of the embedding.
-/

namespace Bakgomong

/-- Python truthiness of an optional string: `None` and `""` are falsy. -/
def pyTruthy : Option String → Bool
  | none => false
  | some s => !(s == "")

/-- ASCII lowercasing of one character, as Python str.lower acts on the
ASCII payloads handled here. -/
def pyLowerChar (c : Char) : Char :=
  if 65 ≤ c.toNat && c.toNat ≤ 90 then Char.ofNat (c.toNat + 32) else c

/-- Python str.lower on the ASCII strings the webhook handles. -/
def pyLower (s : String) : String :=
  String.mk (s.toList.map pyLowerChar)

/-- utilities/choices.py, PaymentStatus (MemberContribution.is_paid). -/
inductive PaymentStatus where
  | PAID
  | PENDING
  | AWAITING_APPROVAL
  | NOT_PAID
  | CANCELLED
  | PARTIALLY_PAID
deriving DecidableEq, Repr

/-- utilities/choices.py, LogPaymentStatus (Payment.is_approved). -/
inductive LogPaymentStatus where
  | NOT_PAID
  | PENDING
  | APPROVED
  | REJECTED
deriving DecidableEq, Repr

/-- utilities/choices.py, Recurrence values (stored as strings). -/
def Recurrence.ONCE_OFF : String := "once_off"

def Recurrence.MONTHLY : String := "monthly"

def Recurrence.ANNUAL : String := "annual"

/-- utilities/choices.py, SCOPE_CHOICES values (stored as strings). -/
def SCOPE_CHOICES.CLAN : String := "clan"

def SCOPE_CHOICES.FAMILY_LEADERS : String := "family_leaders"

def SCOPE_CHOICES.FAMILY : String := "family"

def SCOPE_CHOICES.EXECUTIVES : String := "executives"

/-- Calendar date, for due-date arithmetic (dateutil.relativedelta and
datetime.timedelta as used in contributions/signals.py). -/
structure Date where
  year : Nat
  month : Nat
  day : Nat
deriving DecidableEq, Repr

/-- Gregorian leap year. -/
def isLeap (y : Nat) : Bool :=
  y % 4 == 0 && (y % 100 != 0 || y % 400 == 0)

/-- Number of days in a month. -/
def daysInMonth (y m : Nat) : Nat :=
  if m == 2 then (if isLeap y then 29 else 28)
  else if m == 4 || m == 6 || m == 9 || m == 11 then 30
  else 31

/-- dateutil relativedelta(months=n): shift the month (with year carry)
and clamp the day to the target month's length. -/
def addMonths (d : Date) (n : Nat) : Date :=
  let tm := d.month + n
  let y := d.year + (tm - 1) / 12
  let m := (tm - 1) % 12 + 1
  ⟨y, m, min d.day (daysInMonth y m)⟩

/-- dateutil relativedelta(years=n): shift the year and clamp the day
(Feb 29 becomes Feb 28 off leap years). -/
def addYears (d : Date) (n : Nat) : Date :=
  let y := d.year + n
  ⟨y, d.month, min d.day (daysInMonth y d.month)⟩

/-- Successor day in the calendar. -/
def nextDay (d : Date) : Date :=
  if d.day < daysInMonth d.year d.month then ⟨d.year, d.month, d.day + 1⟩
  else if d.month < 12 then ⟨d.year, d.month + 1, 1⟩
  else ⟨d.year + 1, 1, 1⟩

/-- datetime.timedelta(days=n) addition. -/
def addDays (d : Date) : Nat → Date
  | 0 => d
  | n + 1 => nextDay (addDays d n)

/-- contributions/signals.py, calculate_due_date. -/
def calculate_due_date (today : Date) (recurrence : String) : Date :=
  if recurrence == Recurrence.MONTHLY then addMonths today 1
  else if recurrence == Recurrence.ANNUAL then addYears today 1
  else if recurrence == Recurrence.ONCE_OFF then addDays today 7
  else today

/-- accounts/models.py, Account: the fields the contribution core reads. -/
structure Account where
  id : Nat
  is_active : Bool
  is_approved : Bool
  is_family_leader : Bool
  family : Option Nat
  role : String
  member_classification : Option String
deriving DecidableEq, Repr

/-- contributions/models.py, ContributionType: the fields the fan-out and
checkout read. -/
structure ContributionType where
  id : Nat
  amount : Int
  recurrence : String
  scope : String
  family : Option Nat
  due_date : Option Date
  is_active : Bool
deriving DecidableEq, Repr

/-- contributions/models.py, MemberContribution. -/
structure MemberContribution where
  id : Nat
  account : Nat
  contribution_type : Nat
  amount_due : Int
  reference : String
  due_date : Date
  is_paid : PaymentStatus
deriving DecidableEq, Repr

/-- contributions/models.py, Payment (including the AbstractPayment
gateway columns the views use). -/
structure Payment where
  id : Nat
  account : Nat
  member_contribution : Option Nat
  payment_method : String
  amount : Int
  reference : Option String
  proof_of_payment : Option String
  is_approved : LogPaymentStatus
  payment_verified_by : Option Nat
  payment_verified_date : Option Nat
  rejection_reason : Option String
  checkout_id : Option String
  payment_method_type : Option String
  payment_method_masked_card : Option String
deriving DecidableEq, Repr

/-- Payment.save (contributions/models.py): the status recomputation it
performs on the linked MemberContribution row.  Only this payment
counts: `total_paid` is the payment amount when it is APPROVED, else 0;
the new status is PAID when `total_paid >= amount_due`, PARTIALLY_PAID
when `0 < total_paid < amount_due`, AWAITING_APPROVAL otherwise. -/
def Payment.saveStatus (p : Payment) (m : MemberContribution) : MemberContribution :=
  let total_paid : Int := if p.is_approved = LogPaymentStatus.APPROVED then p.amount else 0
  let new_status :=
    if total_paid ≥ m.amount_due then PaymentStatus.PAID
    else if total_paid > 0 then PaymentStatus.PARTIALLY_PAID
    else PaymentStatus.AWAITING_APPROVAL
  { m with is_paid := new_status }

/-- Payment.save guard: a treasurer recording a brand-new payment without
proof of payment raises ValueError. -/
def Payment.saveRaises (recordedByRole : Option String) (isNew : Bool) (p : Payment) : Bool :=
  (recordedByRole.isSome && isNew) &&
    (recordedByRole == some "TREASURER" && !(pyTruthy p.proof_of_payment))

/-- Payment.save (contributions/models.py): validates the treasurer-proof
rule, persists the payment, and recomputes the linked contribution's
status inside one transaction. -/
def Payment.save (recordedByRole : Option String) (isNew : Bool) (p : Payment)
    (mc : Option MemberContribution) : Except String (Payment × Option MemberContribution) :=
  if Payment.saveRaises recordedByRole isNew p then
    Except.error "Proof of payment is required when treasurer logs a payment."
  else
    Except.ok (p, mc.map (Payment.saveStatus p))

/-- Payment.update_member_contribution_status (contributions/models.py):
sets the linked contribution's `is_paid` to the given status (no-op when
there is no linked contribution). -/
def Payment.update_member_contribution_status (status : PaymentStatus)
    (mc : Option MemberContribution) : Option MemberContribution :=
  mc.map (fun m => { m with is_paid := status })

/-- Payment.approve_payment (contributions/models.py).  A truthy
rejection reason marks the payment REJECTED, otherwise APPROVED; the
verifier and timestamp are recorded; `save` runs (recomputing the linked
contribution status); finally, when approved and linked, the
contribution is forced to PAID. -/
def Payment.approve_payment (p : Payment) (approved_by : Nat)
    (rejection_reason : Option String) (now : Nat)
    (mc : Option MemberContribution) : Payment × Option MemberContribution :=
  let p1 :=
    if pyTruthy rejection_reason then
      { p with is_approved := LogPaymentStatus.REJECTED, rejection_reason := rejection_reason }
    else
      { p with is_approved := LogPaymentStatus.APPROVED, rejection_reason := none }
  let p2 := { p1 with payment_verified_by := some approved_by, payment_verified_date := some now }
  let mc1 := mc.map (Payment.saveStatus p2)
  if p2.is_approved = LogPaymentStatus.APPROVED ∧ mc1.isSome then
    (p2, Payment.update_member_contribution_status PaymentStatus.PAID mc1)
  else
    (p2, mc1)

/-- Sample payment used for concrete evaluations: R50 against a R100
obligation. -/
def samplePartialPayment : Payment :=
  { id := 10, account := 1, member_contribution := some 20, payment_method := "cash",
    amount := 5000, reference := some "#CLN-0A1B2C", proof_of_payment := none,
    is_approved := LogPaymentStatus.PENDING, payment_verified_by := none,
    payment_verified_date := none, rejection_reason := none, checkout_id := none,
    payment_method_type := some "cash", payment_method_masked_card := none }

/-- Sample obligation of R100 linked to `samplePartialPayment`. -/
def sampleObligation : MemberContribution :=
  { id := 20, account := 1, contribution_type := 30, amount_due := 10000,
    reference := "#CLN-0A1B2C", due_date := ⟨2026, 1, 15⟩,
    is_paid := PaymentStatus.AWAITING_APPROVAL }

/-- utilities/choices.py, the executive roles listed in
contributions/signals.py for the EXECUTIVES scope. -/
def executiveRoles : List String :=
  ["CLAN_CHAIRPERSON", "DEP_CHAIRPERSON", "DEP_SECRETARY", "KGOSANA", "SECRETARY", "TREASURER"]

/-- contributions/signals.py, create_member_contributions: the
scope-based member targeting.  CLAN filters on active and approved only;
FAMILY additionally requires the definition's family (and falls through
to the empty queryset when no family is set); FAMILY_LEADERS requires
the leader flag; EXECUTIVES requires the leader flag and an executive
role; any other scope yields no members. -/
def eligible_members (ctype : ContributionType) (accounts : List Account) : List Account :=
  if ctype.scope == SCOPE_CHOICES.CLAN then
    accounts.filter (fun a => a.is_active && a.is_approved)
  else if ctype.scope == SCOPE_CHOICES.FAMILY && ctype.family.isSome then
    accounts.filter (fun a => a.is_active && a.is_approved && a.family == ctype.family)
  else if ctype.scope == SCOPE_CHOICES.FAMILY_LEADERS then
    accounts.filter (fun a => a.is_active && a.is_approved && a.is_family_leader)
  else if ctype.scope == SCOPE_CHOICES.EXECUTIVES then
    accounts.filter (fun a =>
      a.is_active && a.is_approved && a.is_family_leader && executiveRoles.contains a.role)
  else []

/-- contributions/signals.py, create_member_contributions: the list of
MemberContribution rows bulk-created for a newly created
ContributionType.  Empty when no member is eligible or when some
MemberContribution already references the definition (the duplicate
guard).  The due date is the definition's explicit date when set,
otherwise computed from the recurrence.  `refs` supplies the generated
references and `startId` the fresh primary keys. -/
def fanOutCreated (ctype : ContributionType) (accounts : List Account)
    (existing : List MemberContribution) (today : Date)
    (refs : Nat → String) (startId : Nat) : List MemberContribution :=
  let members := eligible_members ctype accounts
  if members.length == 0 then []
  else
    let due := match ctype.due_date with
      | some d => d
      | none => calculate_due_date today ctype.recurrence
    if (existing.filter (fun mc => mc.contribution_type == ctype.id)).length > 0 then []
    else
      members.enum.map (fun im =>
        { id := startId + im.1, account := im.2.id, contribution_type := ctype.id,
          amount_due := ctype.amount, reference := refs im.1, due_date := due,
          is_paid := PaymentStatus.NOT_PAID })

/-- contributions/signals.py, create_member_contributions: the resulting
MemberContribution table (the existing rows plus the bulk-created
ones). -/
def create_member_contributions (ctype : ContributionType) (accounts : List Account)
    (existing : List MemberContribution) (today : Date)
    (refs : Nat → String) (startId : Nat) : List MemberContribution :=
  existing ++ fanOutCreated ctype accounts existing today refs startId

/-- Uppercase hexadecimal digit, as produced by `uuid4().hex[:6].upper()`
(contributions/utils/notifications.py): nibbles 0-9 map to the digits,
10-15 to A-F. -/
def hexUpperChar (n : Fin 16) : Char :=
  if n.val < 10 then Char.ofNat (48 + n.val) else Char.ofNat (55 + n.val)

/-- The reference string built from one uuid draw:
`f"#CLN-{uuid.uuid4().hex[:6].upper()}"`. -/
def refOf (c : List (Fin 16)) : String :=
  "#CLN-" ++ String.mk (c.map hexUpperChar)

/-- contributions/utils/notifications.py, generate_reference: the
retry loop.  `draw k` is the k-th uuid draw (its first six nibbles);
the loop retries while the candidate is already a MemberContribution
reference.  Fuel bounds the unboundedly retrying while-loop; exhausting
it returns none. -/
def generate_reference_aux (draw : Nat → List (Fin 16)) (existing : List String) :
    Nat → Nat → Option String
  | 0, _ => none
  | fuel + 1, k =>
    let ref := refOf (draw k)
    if existing.contains ref then generate_reference_aux draw existing fuel (k + 1)
    else some ref

/-- contributions/utils/notifications.py, generate_reference. -/
def generate_reference (draw : Nat → List (Fin 16)) (existing : List String)
    (fuel : Nat) : Option String :=
  generate_reference_aux draw existing fuel 0

/-- Character class of the regex fragment [A-F0-9]. -/
def isUpperHexDigit (c : Char) : Bool :=
  (decide ('0' ≤ c) && decide (c ≤ '9')) || (decide ('A' ≤ c) && decide (c ≤ 'F'))

/-- Sample date used for concrete evaluations. -/
def sampleToday : Date := ⟨2026, 1, 15⟩

/-- Sample reference supply used for concrete evaluations. -/
def sampleRefs : Nat → String := fun _ => "#CLN-AB12CD"

/-- Sample clan-wide monthly definition of R100. -/
def clanContributionType : ContributionType :=
  { id := 30, amount := 10000, recurrence := "monthly", scope := "clan",
    family := none, due_date := none, is_active := true }

/-- Sample active, approved member classified as a CHILD dependent. -/
def childDependentAccount : Account :=
  { id := 1, is_active := true, is_approved := true, is_family_leader := false,
    family := none, role := "MEMBER", member_classification := some "CHILD" }

/-- Database state shared by the payment views: the Payment and
MemberContribution tables. -/
structure DB where
  payments : List Payment
  contributions : List MemberContribution
deriving DecidableEq, Repr

/-- Row update on the MemberContribution table by primary key. -/
def updateContribution (mcs : List MemberContribution) (i : Nat)
    (f : MemberContribution → MemberContribution) : List MemberContribution :=
  mcs.map (fun m => if m.id == i then f m else m)

/-- Row update on the Payment table by primary key. -/
def updatePayment (ps : List Payment) (i : Nat) (f : Payment → Payment) : List Payment :=
  ps.map (fun p => if p.id == i then f p else p)

/-- Primary-key lookup in the MemberContribution table. -/
def getContribution (mcs : List MemberContribution) (i : Nat) : Option MemberContribution :=
  mcs.find? (fun m => m.id == i)

/-- Primary-key lookup in the Payment table. -/
def getPayment (ps : List Payment) (i : Nat) : Option Payment :=
  ps.find? (fun p => p.id == i)

/-- Outcomes of the yoco_callback view
(contributions/views/payment.py): the 302 redirect to the login page
issued by the @login_required decorator for unauthenticated requests,
the three rendered error pages (400 missing data, 403 signature
mismatch, 404 no matching payment), the 500 page produced by the outer
exception handler, and the success/failure redirects. -/
inductive CallbackResponse where
  | login_redirect
  | invalid_data
  | signature_failed
  | not_found
  | server_error
  | success_redirect (mcId : Nat)
  | failed_redirect (mcId : Nat)
deriving DecidableEq, Repr

/-- An error response of the callback (HTTP 4xx/5xx, rendered error
page rather than a redirect). -/
def CallbackResponse.isError : CallbackResponse → Bool
  | CallbackResponse.invalid_data => true
  | CallbackResponse.signature_failed => true
  | CallbackResponse.not_found => true
  | CallbackResponse.server_error => true
  | _ => false

/-- contributions/views/payment.py, yoco_callback.  The view carries the
@login_required decorator: a request without an authenticated session
is redirected to the login page before the handler body runs, touching
nothing.  `hmacHex` stands for the hashlib/hmac library primitive
(hexdigest of HMAC-SHA256 keyed by the first argument).  The handler
reads transactionId, lowercased status and signature from the POST
data; rejects missing data; verifies the signature only when both a
secret is configured and a signature was sent; looks the payment up by
gateway transaction id; and inside one transaction applies the success
or failure mutations.  A payment whose member_contribution link is
absent (or dangling) makes the view dereference None, so the
transaction rolls back and the outer handler returns a 500 with no
state change. -/
def yoco_callback (authenticated : Bool) (hmacHex : String → String → String)
    (secret : String) (txnQ statusQ sigQ : Option String) (db : DB) :
    CallbackResponse × DB :=
  let txn := txnQ.getD ""
  let status := pyLower (statusQ.getD "")
  if !authenticated then (CallbackResponse.login_redirect, db)
  else if !(pyTruthy txnQ) || status == "" then (CallbackResponse.invalid_data, db)
  else if ((secret != "") && pyTruthy sigQ) &&
      !(sigQ.getD "" == hmacHex secret (txn ++ status)) then
    (CallbackResponse.signature_failed, db)
  else
    match db.payments.find? (fun p => p.payment_method_masked_card == some txn) with
    | none => (CallbackResponse.not_found, db)
    | some p =>
      match p.member_contribution with
      | none => (CallbackResponse.server_error, db)
      | some mid =>
        match getContribution db.contributions mid with
        | none => (CallbackResponse.server_error, db)
        | some _ =>
          let p1 := { p with payment_method_masked_card := some txn }
          if status == "success" then
            let mcs1 := updateContribution db.contributions mid (Payment.saveStatus p1)
            let mcs2 := updateContribution mcs1 mid
              (fun x => { x with is_paid := PaymentStatus.PAID })
            (CallbackResponse.success_redirect mid,
             { payments := updatePayment db.payments p.id (fun _ => p1),
               contributions := mcs2 })
          else
            let mcs1 := updateContribution db.contributions mid
              (fun x => { x with is_paid := PaymentStatus.NOT_PAID })
            let mcs2 := updateContribution mcs1 mid (Payment.saveStatus p1)
            (CallbackResponse.failed_redirect mid,
             { payments := updatePayment db.payments p.id (fun _ => p1),
               contributions := mcs2 })

/-- Responses of the remaining contribution views. -/
inductive ViewResponse where
  | not_found
  | server_error
  | redirect (name : String) (id : Nat)
  | render (name : String)
deriving DecidableEq, Repr

/-- contributions/views/payment.py, payment_success.  The view has no
login_required decorator and never inspects the requester: it loads the
MemberContribution from the URL, takes its linked payment (the reverse
one-to-one; absence raises, giving a 500 with no state change), marks
it APPROVED, saves (which recomputes the linked contribution status),
forces the contribution to PAID, and queues the confirmation task with
the requester's display name. -/
def payment_success (requesterName : String) (mcId : Nat) (db : DB)
    (queue : List (String × Nat)) : ViewResponse × DB × List (String × Nat) :=
  match getContribution db.contributions mcId with
  | none => (ViewResponse.not_found, db, queue)
  | some mc =>
    match db.payments.find? (fun p => p.member_contribution == some mc.id) with
    | none => (ViewResponse.server_error, db, queue)
    | some p =>
      let p1 := { p with is_approved := LogPaymentStatus.APPROVED }
      let mcs1 := match p1.member_contribution with
        | some mid => updateContribution db.contributions mid (Payment.saveStatus p1)
        | none => db.contributions
      let mcs2 := match p1.member_contribution with
        | some mid =>
          updateContribution mcs1 mid (fun x => { x with is_paid := PaymentStatus.PAID })
        | none => mcs1
      (ViewResponse.redirect "member-contribution" mc.id,
       { payments := updatePayment db.payments p.id (fun _ => p1), contributions := mcs2 },
       queue ++ [("send_payment_confirmation_task " ++ requesterName, mc.id)])

/-- Sample gateway payment matched by transaction id "txn_123", linked
to `sampleObligation`. -/
def sampleGatewayPayment : Payment :=
  { id := 11, account := 1, member_contribution := some 20, payment_method := "mobile",
    amount := 10000, reference := some "#CLN-0A1B2C", proof_of_payment := none,
    is_approved := LogPaymentStatus.PENDING, payment_verified_by := none,
    payment_verified_date := none, rejection_reason := none, checkout_id := some "ch_1",
    payment_method_type := some "mobile", payment_method_masked_card := some "txn_123" }

/-- Sample database holding the gateway payment and its obligation. -/
def sampleDB : DB :=
  { payments := [sampleGatewayPayment], contributions := [sampleObligation] }

/-- utilities/choices.py, PaymentMethod values. -/
def PaymentMethod.choices : List String := ["cash", "bank", "mobile", "other"]

/-- The POST data of the checkout form (contributions/forms.py,
PaymentCheckoutForm fields). -/
structure CheckoutFormData where
  member_contribution : Option Nat
  amount : Option Int
  payment_method : Option String
deriving DecidableEq, Repr

/-- PaymentCheckoutForm's member_contribution queryset: only the
requesting user's own contributions with is_paid NOT_PAID; a posted id
outside the queryset fails field validation. -/
def formResolveMC (user : Nat) (mcs : List MemberContribution) (choice : Option Nat) :
    Option MemberContribution :=
  choice.bind (fun i => mcs.find? (fun m =>
    m.id == i && m.account == user && m.is_paid == PaymentStatus.NOT_PAID))

/-- contributions/forms.py, PaymentCheckoutForm.clean: validates the
amount only when a member contribution was resolved — positive, exactly
equal to the outstanding amount_due, and owned by the requesting
user. -/
def paymentCheckoutClean (user : Nat) (m : MemberContribution) (amount : Option Int) :
    Except String Unit :=
  match amount with
  | none => Except.error "Enter a valid payment amount."
  | some a =>
    if a ≤ 0 then Except.error "Payment amount must be greater than zero."
    else if a ≠ m.amount_due then
      Except.error "Payment amount must equal outstanding balance."
    else if m.account ≠ user then
      Except.error "You cannot pay for another member\x27s contribution."
    else Except.ok ()

/-- PaymentCheckoutForm.is_valid: required-field and choice validation
(amount and payment_method are required; member_contribution is an
optional model field but must lie in the queryset when posted), then the
clean() checks. -/
def paymentCheckoutFormResult (user : Nat) (mcs : List MemberContribution)
    (data : CheckoutFormData) : Except String (Option MemberContribution × Int × String) :=
  match data.amount with
  | none => Except.error "This field is required."
  | some a =>
    match data.payment_method with
    | none => Except.error "This field is required."
    | some meth =>
      if !(PaymentMethod.choices.contains meth) then
        Except.error "Select a valid choice."
      else
        match data.member_contribution with
        | none => Except.ok (none, a, meth)
        | some i =>
          match mcs.find? (fun m =>
              m.id == i && m.account == user && m.is_paid == PaymentStatus.NOT_PAID) with
          | none => Except.error "Select a valid choice."
          | some m =>
            match paymentCheckoutClean user m (some a) with
            | Except.error e => Except.error e
            | Except.ok _ => Except.ok (some m, a, meth)

/-- contributions/views/checkout.py, checkout.  Loads the obligation
(404 unless its status is unpaid/pending/awaiting), checks ownership
and the definition's active flag, redirects when a PENDING or NOT_PAID
payment already exists, and otherwise processes the posted form: on
validation failure it re-renders with errors and writes nothing; on
success it inserts the new PENDING payment (save raises inside the
transaction when a treasurer records without proof, and the one-to-one
column rejects a second payment for the same obligation — both roll
back), lets Payment.save recompute the linked contribution status, and
routes by payment method (cash/bank and mobile then force
AWAITING_APPROVAL). -/
def checkout (user : Nat) (isStaff : Bool) (userIsTreasurer : Bool) (mcId : Nat)
    (isPost : Bool) (data : CheckoutFormData) (cts : List ContributionType)
    (db : DB) (nextPid : Nat) : ViewResponse × DB :=
  match db.contributions.find? (fun m => m.id == mcId &&
      [PaymentStatus.NOT_PAID, PaymentStatus.PENDING,
        PaymentStatus.AWAITING_APPROVAL].contains m.is_paid) with
  | none => (ViewResponse.not_found, db)
  | some mc =>
    match cts.find? (fun c => c.id == mc.contribution_type) with
    | none => (ViewResponse.server_error, db)
    | some ct =>
      if mc.account != user && !isStaff then
        (ViewResponse.redirect "member-contributions" 0, db)
      else if !ct.is_active then
        (ViewResponse.redirect "member-contribution" mc.id, db)
      else
        match db.payments.find? (fun p => p.member_contribution == some mc.id &&
            [LogPaymentStatus.PENDING, LogPaymentStatus.NOT_PAID].contains p.is_approved) with
        | some p =>
          if p.payment_method_type == some "mobile" then
            (ViewResponse.redirect "yoco-checkout" p.id, db)
          else
            (ViewResponse.redirect "member-contribution" mc.id, db)
        | none =>
          if !isPost then (ViewResponse.render "checkout", db)
          else
            match paymentCheckoutFormResult user db.contributions data with
            | Except.error _ => (ViewResponse.render "checkout_invalid", db)
            | Except.ok (mcChoice, a, meth) =>
              let payer := if isStaff && mc.account != user then mc.account else user
              let newP : Payment :=
                { id := nextPid, account := payer,
                  member_contribution := mcChoice.map MemberContribution.id,
                  payment_method := meth, amount := a,
                  reference := some mc.reference, proof_of_payment := none,
                  is_approved := LogPaymentStatus.PENDING,
                  payment_verified_by := none, payment_verified_date := none,
                  rejection_reason := none, checkout_id := none,
                  payment_method_type := some meth, payment_method_masked_card := none }
              if userIsTreasurer && !(pyTruthy newP.proof_of_payment) then
                (ViewResponse.render "checkout_error", db)
              else
                match mcChoice with
                | some fmc =>
                  if db.payments.any (fun q => q.member_contribution == some fmc.id) then
                    (ViewResponse.render "checkout_error", db)
                  else
                    let payments1 := db.payments ++ [newP]
                    let mcs1 := updateContribution db.contributions fmc.id
                      (Payment.saveStatus newP)
                    if meth == "cash" || meth == "bank" then
                      (ViewResponse.redirect "member-contribution" mc.id,
                        { payments := payments1,
                          contributions := updateContribution mcs1 fmc.id
                            (fun x => { x with is_paid := PaymentStatus.AWAITING_APPROVAL }) })
                    else if meth == "mobile" then
                      (ViewResponse.redirect "yoco-checkout" nextPid,
                        { payments := payments1,
                          contributions := updateContribution mcs1 fmc.id
                            (fun x => { x with is_paid := PaymentStatus.AWAITING_APPROVAL }) })
                    else
                      (ViewResponse.redirect "checkout" mc.id,
                        { payments := payments1, contributions := mcs1 })
                | none =>
                  let payments1 := db.payments ++ [newP]
                  if meth == "cash" || meth == "bank" then
                    (ViewResponse.redirect "member-contribution" mc.id,
                      { payments := payments1, contributions := db.contributions })
                  else if meth == "mobile" then
                    (ViewResponse.redirect "yoco-checkout" nextPid,
                      { payments := payments1, contributions := db.contributions })
                  else
                    (ViewResponse.redirect "checkout" mc.id,
                      { payments := payments1, contributions := db.contributions })

/-- §3 invariant: at most one Payment row links to any given
MemberContribution (the one-to-one column). -/
def uniqueMCLink (ps : List Payment) : Prop :=
  ∀ p1 ∈ ps, ∀ p2 ∈ ps, ∀ x : Nat,
    p1.member_contribution = some x → p2.member_contribution = some x → p1 = p2

/-- Sample obligation still NOT_PAID, eligible for checkout. -/
def sampleUnpaidObligation : MemberContribution :=
  { id := 21, account := 1, contribution_type := 30, amount_due := 10000,
    reference := "#CLN-77AB2C", due_date := ⟨2026, 2, 15⟩,
    is_paid := PaymentStatus.NOT_PAID }

/-- Sample database with only the unpaid obligation and no payments. -/
def sampleUnpaidDB : DB :=
  { payments := [], contributions := [sampleUnpaidObligation] }

/-- C1 counterexample: approving a payment of 5000 cents against an
obligation of 10000 cents (no rejection reason) leaves the obligation
PAID, not PARTIALLY_PAID as the claim requires for 0 < settled < due;
and rejecting (a truthy rejection reason) leaves the obligation
AWAITING_APPROVAL, which is neither NOT_PAID nor CANCELLED. -/
theorem c1_claim_counterexample :
    ((samplePartialPayment.approve_payment 7 none 0 (some sampleObligation)).2.map
        MemberContribution.is_paid = some PaymentStatus.PAID) ∧
    PaymentStatus.PAID ≠ PaymentStatus.PARTIALLY_PAID ∧
    ((samplePartialPayment.approve_payment 7 (some "no proof") 0 (some sampleObligation)).2.map
        MemberContribution.is_paid = some PaymentStatus.AWAITING_APPROVAL) ∧
    PaymentStatus.AWAITING_APPROVAL ≠ PaymentStatus.NOT_PAID ∧
    PaymentStatus.AWAITING_APPROVAL ≠ PaymentStatus.CANCELLED := by
  refine ⟨?_, by decide, ?_, by decide, by decide⟩ <;> rfl

/-- C1 amended: for a payment linked to a member contribution,
approve_payment without a truthy rejection reason always sets the
payment APPROVED and the obligation PAID, regardless of how the settled
amount compares to the amount due; with a truthy rejection reason it
sets the payment REJECTED and, whenever the amount due is positive,
leaves the obligation at AWAITING_APPROVAL (never NOT_PAID or
CANCELLED). -/
theorem c1_approve_payment_amended (p : Payment) (m : MemberContribution)
    (approved_by now : Nat) (reason : Option String) :
    (pyTruthy reason = false →
      (p.approve_payment approved_by reason now (some m)).1.is_approved =
          LogPaymentStatus.APPROVED ∧
      (p.approve_payment approved_by reason now (some m)).2.map
          MemberContribution.is_paid = some PaymentStatus.PAID) ∧
    (pyTruthy reason = true → 0 < m.amount_due →
      (p.approve_payment approved_by reason now (some m)).1.is_approved =
          LogPaymentStatus.REJECTED ∧
      (p.approve_payment approved_by reason now (some m)).2.map
          MemberContribution.is_paid = some PaymentStatus.AWAITING_APPROVAL) := by
  constructor
  · intro hfalse
    simp only [Payment.approve_payment, hfalse, Bool.false_eq_true, if_false,
      Payment.update_member_contribution_status, Option.map_some', Option.isSome_some]
    simp
  · intro htrue hpos
    simp only [Payment.approve_payment, htrue, if_true]
    have hne : ¬ (LogPaymentStatus.REJECTED = LogPaymentStatus.APPROVED ∧
        (Option.map (Payment.saveStatus
          { p with is_approved := LogPaymentStatus.REJECTED,
                   rejection_reason := reason,
                   payment_verified_by := some approved_by,
                   payment_verified_date := some now }) (some m)).isSome = true) := by
      intro h
      exact LogPaymentStatus.noConfusion h.1
    simp only [hne, if_false]
    simp only [Option.map_some']
    have hlt : ¬ ((0 : Int) ≥ m.amount_due) := by omega
    simp [Payment.saveStatus, hlt]

/-- C1 amended, witness: both branches evaluated at the concrete sample
payment and obligation. -/
theorem c1_approve_payment_amended_witness :
    ((samplePartialPayment.approve_payment 7 none 0 (some sampleObligation)).2.map
        MemberContribution.is_paid = some PaymentStatus.PAID) ∧
    ((samplePartialPayment.approve_payment 7 (some "no proof") 0 (some sampleObligation)).2.map
        MemberContribution.is_paid = some PaymentStatus.AWAITING_APPROVAL) :=
  ⟨((c1_approve_payment_amended samplePartialPayment sampleObligation 7 0 none).1 (by rfl)).2,
   ((c1_approve_payment_amended samplePartialPayment sampleObligation 7 0
      (some "no proof")).2 (by rfl) (by decide)).2⟩

/-- C2 counterexample: a clan-wide fan-out over a single active, approved
member classified CHILD creates an obligation for that member, although
the claim says members classified CHILD receive no obligation. -/
theorem c2_claim_counterexample :
    childDependentAccount.member_classification = some "CHILD" ∧
    childDependentAccount.is_active = true ∧
    childDependentAccount.is_approved = true ∧
    clanContributionType.scope = SCOPE_CHOICES.CLAN ∧
    (fanOutCreated clanContributionType [childDependentAccount] [] sampleToday
        sampleRefs 0).map MemberContribution.account = [childDependentAccount.id] := by
  refine ⟨rfl, rfl, rfl, rfl, ?_⟩
  rfl

/-- C2 amended: a clan-wide fan-out (run on a definition with no
pre-existing obligations) creates exactly one MemberContribution per
active, approved member — with no exclusion of CHILD or GRANDCHILD
classifications — and no duplicates when account ids are distinct. -/
theorem c2_fanout_clan_amended (ctype : ContributionType) (accounts : List Account)
    (existing : List MemberContribution) (today : Date) (refs : Nat → String) (startId : Nat)
    (hscope : ctype.scope = SCOPE_CHOICES.CLAN)
    (hfresh : existing.filter (fun mc => mc.contribution_type == ctype.id) = []) :
    ((fanOutCreated ctype accounts existing today refs startId).map
        MemberContribution.account
      = (accounts.filter (fun a => a.is_active && a.is_approved)).map Account.id) ∧
    ((accounts.map Account.id).Nodup →
      ((fanOutCreated ctype accounts existing today refs startId).map
          MemberContribution.account).Nodup) := by
  have hmembers : eligible_members ctype accounts
      = accounts.filter (fun a => a.is_active && a.is_approved) := by
    simp [eligible_members, hscope]
  have hmap : (fanOutCreated ctype accounts existing today refs startId).map
      MemberContribution.account
      = (accounts.filter (fun a => a.is_active && a.is_approved)).map Account.id := by
    unfold fanOutCreated
    rw [hmembers, hfresh]
    by_cases hlen : (accounts.filter (fun a => a.is_active && a.is_approved)).length == 0
    · have : accounts.filter (fun a => a.is_active && a.is_approved) = [] :=
        List.eq_nil_of_length_eq_zero (by simpa using hlen)
      simp [hlen, this]
    · simp only [hlen, Bool.false_eq_true, if_false, hfresh, List.length_nil, gt_iff_lt,
        lt_self_iff_false, if_neg, not_false_eq_true, List.map_map]
      have hcomp : (MemberContribution.account ∘ (fun im : Nat × Account =>
          ({ id := startId + im.1, account := im.2.id, contribution_type := ctype.id,
             amount_due := ctype.amount, reference := refs im.1,
             due_date := match ctype.due_date with
               | some d => d
               | none => calculate_due_date today ctype.recurrence,
             is_paid := PaymentStatus.NOT_PAID } : MemberContribution)))
          = (Account.id ∘ Prod.snd) := rfl
      rw [hcomp, ← List.map_map, List.enum_map_snd]
  refine ⟨hmap, fun hnodup => ?_⟩
  rw [hmap]
  exact ((List.filter_sublist accounts).map Account.id).nodup hnodup

/-- C2 amended, witness: the concrete clan-wide fan-out over the CHILD
member creates exactly that member's obligation, with no duplicates. -/
theorem c2_fanout_clan_amended_witness :
    ((fanOutCreated clanContributionType [childDependentAccount] [] sampleToday
        sampleRefs 0).map MemberContribution.account
      = ([childDependentAccount].filter (fun a => a.is_active && a.is_approved)).map
          Account.id) ∧
    ((fanOutCreated clanContributionType [childDependentAccount] [] sampleToday
        sampleRefs 0).map MemberContribution.account).Nodup := by
  have h := c2_fanout_clan_amended clanContributionType [childDependentAccount] []
    sampleToday sampleRefs 0 (by rfl) (by rfl)
  exact ⟨h.1, h.2 (by decide)⟩

/-- C6: when at least one MemberContribution already references the
ContributionType, a second fan-out run creates nothing — the
MemberContribution table is returned unchanged. -/
theorem c6_fanout_idempotent (ctype : ContributionType) (accounts : List Account)
    (existing : List MemberContribution) (today : Date) (refs : Nat → String) (startId : Nat)
    (h : existing.filter (fun mc => mc.contribution_type == ctype.id) ≠ []) :
    create_member_contributions ctype accounts existing today refs startId = existing := by
  have hlen : (existing.filter (fun mc => mc.contribution_type == ctype.id)).length > 0 :=
    List.length_pos.mpr h
  unfold create_member_contributions fanOutCreated
  by_cases hm : (eligible_members ctype accounts).length == 0
  · simp [hm]
  · simp [hm, hlen]

/-- C6, witness: a second run over a table already holding the CHILD
member's obligation for the sample definition changes nothing. -/
theorem c6_fanout_idempotent_witness :
    create_member_contributions clanContributionType [childDependentAccount]
      [{ id := 0, account := 1, contribution_type := 30, amount_due := 10000,
         reference := "#CLN-AB12CD", due_date := ⟨2026, 2, 15⟩,
         is_paid := PaymentStatus.NOT_PAID }] sampleToday sampleRefs 1
      = [{ id := 0, account := 1, contribution_type := 30, amount_due := 10000,
           reference := "#CLN-AB12CD", due_date := ⟨2026, 2, 15⟩,
           is_paid := PaymentStatus.NOT_PAID }] :=
  c6_fanout_idempotent clanContributionType [childDependentAccount] _ sampleToday
    sampleRefs 1 (by decide)

/-- C10: every obligation created by the fan-out carries the
definition's explicit due date when one is set, and otherwise today plus
one month for monthly recurrence, today plus one year for annual, today
plus seven days for once-off, and today itself for any other recurrence
value. -/
theorem c10_fanout_due_date (ctype : ContributionType) (accounts : List Account)
    (existing : List MemberContribution) (today : Date) (refs : Nat → String) (startId : Nat) :
    ∀ mc ∈ fanOutCreated ctype accounts existing today refs startId,
      mc.due_date = match ctype.due_date with
        | some d => d
        | none =>
          if ctype.recurrence == Recurrence.MONTHLY then addMonths today 1
          else if ctype.recurrence == Recurrence.ANNUAL then addYears today 1
          else if ctype.recurrence == Recurrence.ONCE_OFF then addDays today 7
          else today := by
  intro mc hmc
  unfold fanOutCreated at hmc
  by_cases hm : (eligible_members ctype accounts).length == 0
  · simp [hm] at hmc
  · simp only [hm, Bool.false_eq_true, if_false] at hmc
    by_cases hex : (existing.filter (fun x => x.contribution_type == ctype.id)).length > 0
    · simp [hex] at hmc
    · simp only [hex, if_false] at hmc
      obtain ⟨im, _, rfl⟩ := List.mem_map.mp hmc
      show (match ctype.due_date with
        | some d => d
        | none => calculate_due_date today ctype.recurrence) = _
      cases ctype.due_date with
      | some d => rfl
      | none => rfl

/-- C10, witness: the sample monthly clan definition without an explicit
due date yields an obligation due exactly one month after today. -/
theorem c10_fanout_due_date_witness :
    ∃ mc ∈ fanOutCreated clanContributionType [childDependentAccount] [] sampleToday
      sampleRefs 0, mc.due_date = addMonths sampleToday 1 := by
  refine ⟨{ id := 0, account := 1, contribution_type := 30, amount_due := 10000,
            reference := "#CLN-AB12CD", due_date := ⟨2026, 2, 15⟩,
            is_paid := PaymentStatus.NOT_PAID }, ?_, ?_⟩
  · decide
  · have h := c10_fanout_due_date clanContributionType [childDependentAccount] []
      sampleToday sampleRefs 0
      { id := 0, account := 1, contribution_type := 30, amount_due := 10000,
        reference := "#CLN-AB12CD", due_date := ⟨2026, 2, 15⟩,
        is_paid := PaymentStatus.NOT_PAID } (by decide)
    simpa using h

/-- Every character produced by `hexUpperChar` lies in [A-F0-9]. -/
lemma hexUpperChar_isUpperHex : ∀ n : Fin 16, isUpperHexDigit (hexUpperChar n) = true := by
  decide

/-- The retry loop of generate_reference only ever returns one of the
uuid-derived candidates, and only one that is not already a
MemberContribution reference. -/
lemma generate_reference_aux_mem (draw : Nat → List (Fin 16)) (existing : List String) :
    ∀ (fuel k : Nat) (r : String),
      generate_reference_aux draw existing fuel k = some r →
      (∃ j, r = refOf (draw j)) ∧ existing.contains r = false := by
  intro fuel
  induction fuel with
  | zero =>
    intro k r h
    simp [generate_reference_aux] at h
  | succ n ih =>
    intro k r h
    unfold generate_reference_aux at h
    by_cases hc : existing.contains (refOf (draw k)) = true
    · simp only [hc, if_true] at h
      exact ih (k + 1) r h
    · simp only [hc, Bool.false_eq_true, if_false, Option.some.injEq] at h
      subst h
      exact ⟨⟨k, rfl⟩, by simpa using hc⟩

/-- C9: whenever generate_reference returns a value, that value is the
fixed prefix "#CLN-" followed by exactly six characters from [A-F0-9],
and it is not already present in the MemberContribution reference set
that was checked. -/
theorem c9_generate_reference_spec (draw : Nat → List (Fin 16)) (existing : List String)
    (fuel : Nat) (r : String)
    (hlen : ∀ n, (draw n).length = 6)
    (h : generate_reference draw existing fuel = some r) :
    r.toList.take 5 = "#CLN-".toList ∧
    (r.toList.drop 5).length = 6 ∧
    (∀ ch ∈ r.toList.drop 5, isUpperHexDigit ch = true) ∧
    existing.contains r = false := by
  obtain ⟨⟨j, rfl⟩, hmem⟩ := generate_reference_aux_mem draw existing fuel 0 r h
  have hdata : (refOf (draw j)).toList = "#CLN-".toList ++ (draw j).map hexUpperChar := rfl
  have hfive : ("#CLN-".toList).length = 5 := rfl
  refine ⟨?_, ?_, ?_, hmem⟩
  · rw [hdata, ← hfive, List.take_left]
  · rw [hdata, ← hfive, List.drop_left, List.length_map, hlen]
  · rw [hdata, ← hfive, List.drop_left]
    intro ch hch
    obtain ⟨n, _, rfl⟩ := List.mem_map.mp hch
    exact hexUpperChar_isUpperHex n

/-- C9, witness: a concrete draw yields "#CLN-0A1B2C", which matches the
pattern and avoids the existing reference "#CLN-AB12CD". -/
theorem c9_generate_reference_spec_witness :
    "#CLN-0A1B2C".toList.take 5 = "#CLN-".toList ∧
    ("#CLN-0A1B2C".toList.drop 5).length = 6 ∧
    (∀ ch ∈ "#CLN-0A1B2C".toList.drop 5, isUpperHexDigit ch = true) ∧
    ["#CLN-AB12CD"].contains "#CLN-0A1B2C" = false :=
  c9_generate_reference_spec (fun _ => [⟨0, by omega⟩, ⟨10, by omega⟩, ⟨1, by omega⟩,
      ⟨11, by omega⟩, ⟨2, by omega⟩, ⟨12, by omega⟩])
    ["#CLN-AB12CD"] 3 "#CLN-0A1B2C" (fun _ => rfl) (by decide)

/-- Primary-key lookup after a row update that keeps the key: the looked
up row is the updated one. -/
lemma getContribution_updateContribution (mcs : List MemberContribution) (i : Nat)
    (f : MemberContribution → MemberContribution)
    (hf : ∀ m : MemberContribution, m.id = i → (f m).id = i) :
    getContribution (updateContribution mcs i f) i = (getContribution mcs i).map f := by
  induction mcs with
  | nil => rfl
  | cons m rest ih =>
    unfold updateContribution getContribution at *
    simp only [List.map_cons]
    by_cases hm : (m.id == i) = true
    · have hid : ((f m).id == i) = true := by
        have := hf m (by simpa using hm)
        simp [this]
      simp [List.find?_cons, hm, hid]
    · simp only [hm, Bool.false_eq_true, if_false, List.find?_cons]
      exact ih

/-- Primary-key lookup on the Payment table after a row update that
keeps the key. -/
lemma getPayment_updatePayment (ps : List Payment) (i : Nat) (f : Payment → Payment)
    (hf : ∀ p : Payment, p.id = i → (f p).id = i) :
    getPayment (updatePayment ps i f) i = (getPayment ps i).map f := by
  induction ps with
  | nil => rfl
  | cons p rest ih =>
    unfold updatePayment getPayment at *
    simp only [List.map_cons]
    by_cases hp : (p.id == i) = true
    · have hid : ((f p).id == i) = true := by
        have := hf p (by simpa using hp)
        simp [this]
      simp [List.find?_cons, hp, hid]
    · simp only [hp, Bool.false_eq_true, if_false, List.find?_cons]
      exact ih

/-- Specialization: setting `is_paid` keeps the primary key. -/
lemma getContribution_setPaid (mcs : List MemberContribution) (i : Nat) (st : PaymentStatus) :
    getContribution (updateContribution mcs i (fun x => { x with is_paid := st })) i
      = (getContribution mcs i).map (fun x => { x with is_paid := st }) :=
  getContribution_updateContribution mcs i (fun x => { x with is_paid := st })
    (fun _ hx => hx)

/-- Specialization: the Payment.save status recomputation keeps the
primary key. -/
lemma getContribution_saveStatus (mcs : List MemberContribution) (i : Nat) (q : Payment) :
    getContribution (updateContribution mcs i (Payment.saveStatus q)) i
      = (getContribution mcs i).map (Payment.saveStatus q) :=
  getContribution_updateContribution mcs i (Payment.saveStatus q) (fun _ hx => hx)

/-- C3 counterexample: a genuine inbound webhook request carries no
authenticated session, so @login_required answers a concrete
bad-signature request (secret configured, signature mismatched) with
the login redirect — which is not an error response — although no row
changes.  The claim, which promises an error response for every such
request, is therefore false. -/
theorem c3_claim_counterexample :
    ("badsig" ≠ (fun k msg => k ++ msg) "sek" ("txn_123" ++ pyLower "success")) ∧
    ((yoco_callback false (fun k msg => k ++ msg) "sek" (some "txn_123") (some "success")
        (some "badsig") sampleDB).1 = CallbackResponse.login_redirect) ∧
    CallbackResponse.login_redirect.isError = false ∧
    ((yoco_callback false (fun k msg => k ++ msg) "sek" (some "txn_123") (some "success")
        (some "badsig") sampleDB).2 = sampleDB) :=
  ⟨by decide, rfl, rfl, rfl⟩

/-- C3 amended: a webhook request carrying a (non-empty) signature
different from the HMAC over transactionId concatenated with the
lowercased status, while a gateway secret is configured, never changes
the Payment or MemberContribution tables; an authenticated request
receives an error response, and an unauthenticated one is redirected
to the login page by @login_required before the handler runs. -/
theorem c3_yoco_callback_bad_signature (authenticated : Bool)
    (hmacHex : String → String → String) (secret : String)
    (txnQ statusQ sigQ : Option String) (db : DB)
    (hsecret : secret ≠ "")
    (hsig : pyTruthy sigQ = true)
    (hbad : sigQ.getD "" ≠ hmacHex secret ((txnQ.getD "") ++ pyLower (statusQ.getD ""))) :
    (yoco_callback authenticated hmacHex secret txnQ statusQ sigQ db).2 = db ∧
    (authenticated = true →
      (yoco_callback authenticated hmacHex secret txnQ statusQ sigQ db).1.isError = true) ∧
    (authenticated = false →
      (yoco_callback authenticated hmacHex secret txnQ statusQ sigQ db).1
        = CallbackResponse.login_redirect) := by
  cases authenticated with
  | false =>
    refine ⟨rfl, ?_, fun _ => rfl⟩
    intro h
    exact absurd h (by simp)
  | true =>
    have hmain : (yoco_callback true hmacHex secret txnQ statusQ sigQ db).1.isError = true ∧
        (yoco_callback true hmacHex secret txnQ statusQ sigQ db).2 = db := by
      unfold yoco_callback
      by_cases h1 : (!(pyTruthy txnQ) || (pyLower (statusQ.getD "") == "")) = true
      · simp [h1, CallbackResponse.isError]
      · have h2 : (((secret != "") && pyTruthy sigQ) &&
            !(sigQ.getD "" == hmacHex secret
              ((txnQ.getD "") ++ pyLower (statusQ.getD "")))) = true := by
          simp only [Bool.and_eq_true, bne_iff_ne, ne_eq, Bool.not_eq_true',
            beq_eq_false_iff_ne]
          exact ⟨⟨hsecret, hsig⟩, hbad⟩
        simp [h1, h2, CallbackResponse.isError]
    refine ⟨hmain.2, fun _ => hmain.1, ?_⟩
    intro h
    exact absurd h (by simp)

/-- C3 amended, witness: the concrete mismatching signature with a
configured secret, exercised both authenticated (error page, no state
change) and unauthenticated (login redirect, no state change). -/
theorem c3_yoco_callback_bad_signature_witness :
    ((yoco_callback true (fun k msg => k ++ msg) "sek" (some "txn_123") (some "success")
        (some "badsig") sampleDB).1.isError = true) ∧
    ((yoco_callback true (fun k msg => k ++ msg) "sek" (some "txn_123") (some "success")
        (some "badsig") sampleDB).2 = sampleDB) ∧
    ((yoco_callback false (fun k msg => k ++ msg) "sek" (some "txn_123") (some "success")
        (some "badsig") sampleDB).1 = CallbackResponse.login_redirect) ∧
    ((yoco_callback false (fun k msg => k ++ msg) "sek" (some "txn_123") (some "success")
        (some "badsig") sampleDB).2 = sampleDB) :=
  ⟨(c3_yoco_callback_bad_signature true (fun k msg => k ++ msg) "sek" (some "txn_123")
      (some "success") (some "badsig") sampleDB (by decide) (by decide)
      (by decide)).2.1 rfl,
   (c3_yoco_callback_bad_signature true (fun k msg => k ++ msg) "sek" (some "txn_123")
      (some "success") (some "badsig") sampleDB (by decide) (by decide) (by decide)).1,
   (c3_yoco_callback_bad_signature false (fun k msg => k ++ msg) "sek" (some "txn_123")
      (some "success") (some "badsig") sampleDB (by decide) (by decide)
      (by decide)).2.2 rfl,
   (c3_yoco_callback_bad_signature false (fun k msg => k ++ msg) "sek" (some "txn_123")
      (some "success") (some "badsig") sampleDB (by decide) (by decide) (by decide)).1⟩

/-- C4 counterexample: a genuine inbound webhook request has no
authenticated session, so even with transactionId and status present,
no signature, no configured secret, and a matching payment,
@login_required redirects it to the login page and nothing is mutated —
the sample obligation keeps its AWAITING_APPROVAL status, refuting the
claim that every such request still mutates the rows. -/
theorem c4_claim_counterexample :
    (yoco_callback false (fun k msg => k ++ msg) "" (some "txn_123") (some "success") none
        sampleDB)
      = (CallbackResponse.login_redirect, sampleDB) ∧
    ((getContribution sampleDB.contributions 20).map MemberContribution.is_paid
      = some PaymentStatus.AWAITING_APPROVAL) :=
  ⟨rfl, rfl⟩

/-- C4 amended: for every authenticated request whose payload contains
transactionId and status but omits the signature field (or when no
gateway secret is configured), yoco_callback skips signature
verification entirely; with a matching payment and status success it
answers with the success redirect and drives the linked
MemberContribution to PAID — mutating the table whenever that
contribution was not already PAID.  (An unauthenticated request —
every genuine gateway callback — is redirected to the login page and
mutates nothing.) -/
theorem c4_yoco_callback_unverified_mutation (hmacHex : String → String → String)
    (secret : String) (txnQ statusQ sigQ : Option String) (db : DB)
    (p : Payment) (mid : Nat) (m : MemberContribution)
    (hnoverify : secret = "" ∨ pyTruthy sigQ = false)
    (htxn : pyTruthy txnQ = true)
    (hstatus : pyLower (statusQ.getD "") = "success")
    (hfind : db.payments.find?
      (fun q => q.payment_method_masked_card == some (txnQ.getD "")) = some p)
    (hmc : p.member_contribution = some mid)
    (hget : getContribution db.contributions mid = some m) :
    (yoco_callback true hmacHex secret txnQ statusQ sigQ db).1 =
        CallbackResponse.success_redirect mid ∧
    ((getContribution (yoco_callback true hmacHex secret txnQ statusQ sigQ db).2.contributions
        mid).map MemberContribution.is_paid = some PaymentStatus.PAID) ∧
    (m.is_paid ≠ PaymentStatus.PAID →
      (yoco_callback true hmacHex secret txnQ statusQ sigQ db).2 ≠ db) ∧
    (yoco_callback false hmacHex secret txnQ statusQ sigQ db).2 = db := by
  have h1 : (!(pyTruthy txnQ) || (pyLower (statusQ.getD "") == "")) = false := by
    rw [htxn, hstatus]
    rfl
  have h2 : (((secret != "") && pyTruthy sigQ) &&
      !(sigQ.getD "" == hmacHex secret
        ((txnQ.getD "") ++ pyLower (statusQ.getD "")))) = false := by
    rcases hnoverify with hs | hs
    · subst hs
      simp
    · rw [hs]
      simp
  have hresult : yoco_callback true hmacHex secret txnQ statusQ sigQ db =
      (CallbackResponse.success_redirect mid,
       { payments := updatePayment db.payments p.id
           (fun _ => { p with payment_method_masked_card := some (txnQ.getD "") }),
         contributions := updateContribution
           (updateContribution db.contributions mid
             (Payment.saveStatus
               { p with payment_method_masked_card := some (txnQ.getD "") }))
           mid (fun x => { x with is_paid := PaymentStatus.PAID }) }) := by
    simp only [yoco_callback]
    rw [h1, h2]
    simp only [Bool.not_true, Bool.false_eq_true, if_false, hfind]
    simp only [hmc, hget, hstatus, beq_self_eq_true, if_true]
  rw [hresult]
  have hsecond : getContribution
      (updateContribution
        (updateContribution db.contributions mid
          (Payment.saveStatus { p with payment_method_masked_card := some (txnQ.getD "") }))
        mid (fun x => { x with is_paid := PaymentStatus.PAID })) mid =
      ((getContribution db.contributions mid).map
        (Payment.saveStatus { p with payment_method_masked_card := some (txnQ.getD "") })).map
        (fun x => { x with is_paid := PaymentStatus.PAID }) := by
    rw [getContribution_setPaid, getContribution_saveStatus]
  refine ⟨rfl, ?_, ?_, rfl⟩
  · rw [hsecond, hget]
    rfl
  · intro hnp heq
    have hco : updateContribution
        (updateContribution db.contributions mid
          (Payment.saveStatus { p with payment_method_masked_card := some (txnQ.getD "") }))
        mid (fun x => { x with is_paid := PaymentStatus.PAID }) = db.contributions :=
      congrArg DB.contributions heq
    have : (some m).map MemberContribution.is_paid = some PaymentStatus.PAID := by
      rw [← hget]
      conv_lhs => rw [← hco]
      rw [hsecond, hget]
      rfl
    simp only [Option.map_some'] at this
    exact hnp (Option.some.injEq _ _ ▸ this)

/-- C4 amended, witness: with no signature sent and no secret
configured, the concrete authenticated callback mutates the sample
obligation to PAID and answers with the success redirect, while the
unauthenticated one leaves the database untouched. -/
theorem c4_yoco_callback_unverified_mutation_witness :
    ((yoco_callback true (fun k msg => k ++ msg) "" (some "txn_123") (some "success") none
        sampleDB).1 = CallbackResponse.success_redirect 20) ∧
    ((getContribution (yoco_callback true (fun k msg => k ++ msg) "" (some "txn_123")
        (some "success") none sampleDB).2.contributions 20).map
        MemberContribution.is_paid = some PaymentStatus.PAID) ∧
    ((yoco_callback true (fun k msg => k ++ msg) "" (some "txn_123") (some "success") none
        sampleDB).2 ≠ sampleDB) ∧
    ((yoco_callback false (fun k msg => k ++ msg) "" (some "txn_123") (some "success") none
        sampleDB).2 = sampleDB) := by
  have h := c4_yoco_callback_unverified_mutation (fun k msg => k ++ msg) "" (some "txn_123")
    (some "success") none sampleDB sampleGatewayPayment 20 sampleObligation
    (Or.inl rfl) (by decide) (by decide) (by decide) (by decide) (by decide)
  exact ⟨h.1, h.2.1, h.2.2.1 (by decide), h.2.2.2⟩

/-- C5: payment_success approves the linked payment and forces the
obligation to PAID for any requester whatsoever — the resulting database
does not depend on who made the request, and no gateway data is even
an input of the view. -/
theorem c5_payment_success_unauthenticated (requesterName : String) (mcId : Nat) (db : DB)
    (queue : List (String × Nat)) (mc : MemberContribution) (p : Payment)
    (hget : getContribution db.contributions mcId = some mc)
    (hfind : db.payments.find? (fun q => q.member_contribution == some mc.id) = some p) :
    ((getPayment (payment_success requesterName mcId db queue).2.1.payments p.id).map
        Payment.is_approved = some LogPaymentStatus.APPROVED) ∧
    ((getContribution (payment_success requesterName mcId db queue).2.1.contributions
        mc.id).map MemberContribution.is_paid = some PaymentStatus.PAID) ∧
    (∀ name1 name2 : String,
      (payment_success name1 mcId db queue).2.1 = (payment_success name2 mcId db queue).2.1) := by
  have hmc : p.member_contribution = some mc.id := by
    have := List.find?_some hfind
    simpa using this
  have hmcid : mc.id = mcId := by
    have h := hget
    unfold getContribution at h
    have := List.find?_some h
    simpa using this
  have hget' : getContribution db.contributions mc.id = some mc := by
    rw [hmcid]
    exact hget
  have hpmem : p ∈ db.payments := List.mem_of_find?_eq_some hfind
  have hresult : ∀ name : String, (payment_success name mcId db queue).2.1 =
      { payments := updatePayment db.payments p.id
          (fun _ => { p with is_approved := LogPaymentStatus.APPROVED }),
        contributions := updateContribution
          (updateContribution db.contributions mc.id
            (Payment.saveStatus { p with is_approved := LogPaymentStatus.APPROVED }))
          mc.id (fun x => { x with is_paid := PaymentStatus.PAID }) } := by
    intro name
    simp only [payment_success, hget, hfind, hmc]
  refine ⟨?_, ?_, fun n1 n2 => (hresult n1).trans (hresult n2).symm⟩
  · rw [hresult]
    have hup : getPayment (updatePayment db.payments p.id
        (fun _ => { p with is_approved := LogPaymentStatus.APPROVED })) p.id =
        (getPayment db.payments p.id).map
          (fun _ => { p with is_approved := LogPaymentStatus.APPROVED }) :=
      getPayment_updatePayment _ _ _ (fun q _ => rfl)
    rw [hup]
    have hsome : (getPayment db.payments p.id).isSome = true := by
      unfold getPayment
      rw [List.find?_isSome]
      exact ⟨p, hpmem, by simp⟩
    obtain ⟨q, hq⟩ := Option.isSome_iff_exists.mp hsome
    rw [hq]
    rfl
  · rw [hresult]
    show (getContribution (updateContribution (updateContribution db.contributions mc.id
        (Payment.saveStatus { p with is_approved := LogPaymentStatus.APPROVED })) mc.id
        (fun x => { x with is_paid := PaymentStatus.PAID })) mc.id).map
        MemberContribution.is_paid = some PaymentStatus.PAID
    rw [getContribution_setPaid, getContribution_saveStatus, hget']
    rfl

/-- C5, witness: an arbitrary anonymous requester name drives the sample
obligation to PAID and the sample payment to APPROVED. -/
theorem c5_payment_success_unauthenticated_witness :
    ((getPayment (payment_success "anonymous" 20 sampleDB []).2.1.payments 11).map
        Payment.is_approved = some LogPaymentStatus.APPROVED) ∧
    ((getContribution (payment_success "anonymous" 20 sampleDB []).2.1.contributions 20).map
        MemberContribution.is_paid = some PaymentStatus.PAID) := by
  have h := c5_payment_success_unauthenticated "anonymous" 20 sampleDB []
    sampleObligation sampleGatewayPayment (by decide) (by decide)
  exact ⟨h.1, h.2.1⟩

/-- C7: a POSTed checkout whose amount differs from the selected
obligation's amount_due fails form validation: the view re-renders with
errors, creates no Payment, and leaves every MemberContribution —
including its status field — unchanged. -/
theorem c7_checkout_amount_mismatch_rejected
    (user : Nat) (isStaff userIsTreasurer : Bool) (mcId : Nat) (data : CheckoutFormData)
    (cts : List ContributionType) (db : DB) (nextPid : Nat)
    (mc : MemberContribution) (ct : ContributionType) (fm : MemberContribution)
    (i : Nat) (a : Int)
    (hfind : db.contributions.find? (fun m => m.id == mcId &&
      [PaymentStatus.NOT_PAID, PaymentStatus.PENDING,
        PaymentStatus.AWAITING_APPROVAL].contains m.is_paid) = some mc)
    (hct : cts.find? (fun c => c.id == mc.contribution_type) = some ct)
    (hown : (mc.account != user && !isStaff) = false)
    (hactive : ct.is_active = true)
    (hnopay : db.payments.find? (fun p => p.member_contribution == some mc.id &&
      [LogPaymentStatus.PENDING, LogPaymentStatus.NOT_PAID].contains p.is_approved) = none)
    (hchoice : data.member_contribution = some i)
    (hres : db.contributions.find? (fun m =>
      m.id == i && m.account == user && m.is_paid == PaymentStatus.NOT_PAID) = some fm)
    (hamount : data.amount = some a)
    (hne : a ≠ fm.amount_due) :
    checkout user isStaff userIsTreasurer mcId true data cts db nextPid
      = (ViewResponse.render "checkout_invalid", db) := by
  have hform : ∃ e, paymentCheckoutFormResult user db.contributions data
      = Except.error e := by
    simp only [paymentCheckoutFormResult, hamount, hchoice]
    cases hpm : data.payment_method with
    | none => exact ⟨_, rfl⟩
    | some meth =>
      dsimp only
      by_cases hch : PaymentMethod.choices.contains meth = true
      · rw [hch]
        simp only [Bool.not_true, Bool.false_eq_true, if_false, hres, paymentCheckoutClean]
        by_cases hle : a ≤ 0
        · exact ⟨"Payment amount must be greater than zero.", by simp [hle]⟩
        · exact ⟨"Payment amount must equal outstanding balance.", by simp [hle, hne]⟩
      · rw [Bool.not_eq_true] at hch
        rw [hch]
        exact ⟨"Select a valid choice.", rfl⟩
  obtain ⟨e, he⟩ := hform
  simp only [checkout, hfind, hct, hown, Bool.false_eq_true, if_false, hactive,
    Bool.not_true, hnopay, Bool.not_true, he]

/-- C7, witness: a concrete POST of 5000 cents against a 10000-cent
obligation is rejected with the invalid-form render and an unchanged
database. -/
theorem c7_checkout_amount_mismatch_rejected_witness :
    checkout 1 false false 21 true
      { member_contribution := some 21, amount := some 5000, payment_method := some "cash" }
      [clanContributionType] sampleUnpaidDB 100
      = (ViewResponse.render "checkout_invalid", sampleUnpaidDB) :=
  c7_checkout_amount_mismatch_rejected 1 false false 21
    { member_contribution := some 21, amount := some 5000, payment_method := some "cash" }
    [clanContributionType] sampleUnpaidDB 100 sampleUnpaidObligation clanContributionType
    sampleUnpaidObligation 21 5000 (by decide) (by decide) (by decide) (by decide)
    (by decide) (by decide) (by decide) (by decide) (by decide)

/-- Appending a payment whose linked obligation is claimed by no
existing payment keeps the one-payment-per-obligation invariant. -/
lemma uniqueMCLink_append_some (ps : List Payment) (q : Payment) (mid : Nat)
    (hu : uniqueMCLink ps) (hq : q.member_contribution = some mid)
    (hno : ps.any (fun r => r.member_contribution == some mid) = false) :
    uniqueMCLink (ps ++ [q]) := by
  have hnomem : ∀ r ∈ ps, r.member_contribution ≠ some mid := by
    intro r hr
    have := List.any_eq_false.mp hno r hr
    simpa using this
  intro p1 h1 p2 h2 x hx1 hx2
  rcases List.mem_append.mp h1 with h1p | h1q
  · rcases List.mem_append.mp h2 with h2p | h2q
    · exact hu p1 h1p p2 h2p x hx1 hx2
    · have hp2 : p2 = q := by simpa using h2q
      subst hp2
      rw [hq] at hx2
      have hmx : mid = x := Option.some.inj hx2
      rw [← hmx] at hx1
      exact absurd hx1 (hnomem p1 h1p)
  · have hp1 : p1 = q := by simpa using h1q
    subst hp1
    rcases List.mem_append.mp h2 with h2p | h2q
    · rw [hq] at hx1
      have hmx : mid = x := Option.some.inj hx1
      rw [← hmx] at hx2
      exact absurd hx2 (hnomem p2 h2p)
    · have hp2 : p2 = p1 := by simpa using h2q
      rw [hp2]

/-- Appending a payment with no linked obligation keeps the
one-payment-per-obligation invariant. -/
lemma uniqueMCLink_append_none (ps : List Payment) (q : Payment)
    (hu : uniqueMCLink ps) (hq : q.member_contribution = none) :
    uniqueMCLink (ps ++ [q]) := by
  intro p1 h1 p2 h2 x hx1 hx2
  rcases List.mem_append.mp h1 with h1p | h1q
  · rcases List.mem_append.mp h2 with h2p | h2q
    · exact hu p1 h1p p2 h2p x hx1 hx2
    · have hp2 : p2 = q := by simpa using h2q
      rw [hp2, hq] at hx2
      exact absurd hx2 (by simp)
  · have hp1 : p1 = q := by simpa using h1q
    rw [hp1, hq] at hx1
    exact absurd hx1 (by simp)

/-- When a PENDING or NOT_PAID payment already exists for the checked
out obligation, no checkout path writes to the Payment table. -/
lemma checkout_no_new_payment_when_pending (user : Nat) (isStaff userIsTreasurer : Bool)
    (mcId : Nat) (isPost : Bool) (data : CheckoutFormData) (cts : List ContributionType)
    (db : DB) (nextPid : Nat)
    (hpend : (db.payments.find? (fun p => p.member_contribution == some mcId &&
      [LogPaymentStatus.PENDING, LogPaymentStatus.NOT_PAID].contains p.is_approved)).isSome
        = true) :
    (checkout user isStaff userIsTreasurer mcId isPost data cts db nextPid).2.payments
      = db.payments := by
  unfold checkout
  cases hurl : db.contributions.find? (fun m => m.id == mcId &&
      [PaymentStatus.NOT_PAID, PaymentStatus.PENDING,
        PaymentStatus.AWAITING_APPROVAL].contains m.is_paid) with
  | none => rfl
  | some mc =>
    dsimp only
    have hmcid : mc.id = mcId := by
      have h := List.find?_some hurl
      simp only [Bool.and_eq_true, beq_iff_eq] at h
      exact h.1
    cases hctf : cts.find? (fun c => c.id == mc.contribution_type) with
    | none => rfl
    | some ct =>
      dsimp only
      by_cases hown : (mc.account != user && !isStaff) = true
      · rw [if_pos hown]
      · rw [if_neg hown]
        by_cases hact : (!ct.is_active) = true
        · rw [if_pos hact]
        · rw [if_neg hact]
          rw [hmcid]
          cases hpay : db.payments.find? (fun p => p.member_contribution == some mcId &&
              [LogPaymentStatus.PENDING, LogPaymentStatus.NOT_PAID].contains p.is_approved) with
          | none =>
            rw [hpay] at hpend
            simp at hpend
          | some p =>
            dsimp only
            by_cases hmob : (p.payment_method_type == some "mobile") = true
            · rw [if_pos hmob]
            · rw [if_neg hmob]

/-- Every checkout path preserves the one-payment-per-obligation
invariant: the only path that inserts a Payment first checks that no
existing payment links the same obligation (and otherwise rolls
back). -/
lemma checkout_preserves_uniqueMCLink (user : Nat) (isStaff userIsTreasurer : Bool)
    (mcId : Nat) (isPost : Bool) (data : CheckoutFormData) (cts : List ContributionType)
    (db : DB) (nextPid : Nat)
    (hu : uniqueMCLink db.payments) :
    uniqueMCLink
      (checkout user isStaff userIsTreasurer mcId isPost data cts db nextPid).2.payments := by
  unfold checkout
  cases hurl : db.contributions.find? (fun m => m.id == mcId &&
      [PaymentStatus.NOT_PAID, PaymentStatus.PENDING,
        PaymentStatus.AWAITING_APPROVAL].contains m.is_paid) with
  | none => exact hu
  | some mc =>
    dsimp only
    cases hctf : cts.find? (fun c => c.id == mc.contribution_type) with
    | none => exact hu
    | some ct =>
      dsimp only
      by_cases hown : (mc.account != user && !isStaff) = true
      · rw [if_pos hown]
        exact hu
      · rw [if_neg hown]
        by_cases hact : (!ct.is_active) = true
        · rw [if_pos hact]
          exact hu
        · rw [if_neg hact]
          cases hpay : db.payments.find? (fun p => p.member_contribution == some mc.id &&
              [LogPaymentStatus.PENDING, LogPaymentStatus.NOT_PAID].contains p.is_approved) with
          | some p =>
            dsimp only
            by_cases hmob : (p.payment_method_type == some "mobile") = true
            · rw [if_pos hmob]
              exact hu
            · rw [if_neg hmob]
              exact hu
          | none =>
            dsimp only
            by_cases hpost : (!isPost) = true
            · rw [if_pos hpost]
              exact hu
            · rw [if_neg hpost]
              cases hform : paymentCheckoutFormResult user db.contributions data with
              | error e => exact hu
              | ok trip =>
                dsimp only
                obtain ⟨mcChoice, a, meth⟩ := trip
                dsimp only
                simp only [pyTruthy, Bool.not_false, Bool.and_true]
                by_cases htr : userIsTreasurer = true
                · rw [if_pos htr]
                  exact hu
                · rw [if_neg htr]
                  cases mcChoice with
                  | some fmc =>
                    dsimp only
                    by_cases hany : (db.payments.any
                        (fun q => q.member_contribution == some fmc.id)) = true
                    · rw [if_pos hany]
                      exact hu
                    · rw [if_neg hany]
                      rw [Bool.not_eq_true] at hany
                      by_cases hm1 : ((meth == "cash" || meth == "bank") = true)
                      · rw [if_pos hm1]
                        exact uniqueMCLink_append_some db.payments _ fmc.id hu rfl hany
                      · rw [if_neg hm1]
                        by_cases hm2 : ((meth == "mobile") = true)
                        · rw [if_pos hm2]
                          exact uniqueMCLink_append_some db.payments _ fmc.id hu rfl hany
                        · rw [if_neg hm2]
                          exact uniqueMCLink_append_some db.payments _ fmc.id hu rfl hany
                  | none =>
                    dsimp only
                    by_cases hm1 : ((meth == "cash" || meth == "bank") = true)
                    · rw [if_pos hm1]
                      exact uniqueMCLink_append_none db.payments _ hu rfl
                    · rw [if_neg hm1]
                      by_cases hm2 : ((meth == "mobile") = true)
                      · rw [if_pos hm2]
                        exact uniqueMCLink_append_none db.payments _ hu rfl
                      · rw [if_neg hm2]
                        exact uniqueMCLink_append_none db.payments _ hu rfl

/-- C8: initiating checkout while a PENDING or NOT_PAID payment already
exists for the obligation creates no new Payment row; and every
checkout outcome keeps the data-model invariant that at most one
Payment links to each obligation. -/
theorem c8_checkout_single_active_payment (user : Nat) (isStaff userIsTreasurer : Bool)
    (mcId : Nat) (isPost : Bool) (data : CheckoutFormData) (cts : List ContributionType)
    (db : DB) (nextPid : Nat) :
    ((db.payments.find? (fun p => p.member_contribution == some mcId &&
        [LogPaymentStatus.PENDING, LogPaymentStatus.NOT_PAID].contains p.is_approved)).isSome
          = true →
      (checkout user isStaff userIsTreasurer mcId isPost data cts db nextPid).2.payments
        = db.payments) ∧
    (uniqueMCLink db.payments →
      uniqueMCLink
        (checkout user isStaff userIsTreasurer mcId isPost data cts db nextPid).2.payments) :=
  ⟨checkout_no_new_payment_when_pending user isStaff userIsTreasurer mcId isPost data cts
      db nextPid,
   checkout_preserves_uniqueMCLink user isStaff userIsTreasurer mcId isPost data cts
      db nextPid⟩

/-- C8, witness: checking out the sample obligation while its PENDING
gateway payment exists creates nothing, and the invariant holds
afterwards. -/
theorem c8_checkout_single_active_payment_witness :
    ((checkout 1 false false 20 true
        { member_contribution := some 20, amount := some 10000,
          payment_method := some "cash" }
        [clanContributionType] sampleDB 100).2.payments = sampleDB.payments) ∧
    uniqueMCLink (checkout 1 false false 20 true
        { member_contribution := some 20, amount := some 10000,
          payment_method := some "cash" }
        [clanContributionType] sampleDB 100).2.payments := by
  have huconc : uniqueMCLink sampleDB.payments := by
    intro p1 h1 p2 h2 x hx1 hx2
    have h1e : p1 = sampleGatewayPayment := by simpa [sampleDB] using h1
    have h2e : p2 = sampleGatewayPayment := by simpa [sampleDB] using h2
    rw [h1e, h2e]
  have h := c8_checkout_single_active_payment 1 false false 20 true
    { member_contribution := some 20, amount := some 10000, payment_method := some "cash" }
    [clanContributionType] sampleDB 100
  exact ⟨h.1 (by decide), h.2 huconc⟩

end Bakgomong
